import Mathlib

/-!
Verification of the azure-activation-service CLI (cli.py) role-cache and
reconciliation subsystem: cache load/refresh policy, activate/deactivate
preconditions and post-mutation refresh, config import/migration, and the
auto-activation loop. The external PIM client is modelled from the spec as
an opaque capability; everything else is translated from cli.py.
-/

namespace AzureActivationService

/-- Role record as consumed by cli.py. Modelled from the spec (section 3) since
the PIM client module that defines it is the external collaborator: `name` is the
opaque id used for lookups, `assignment_type` is the nullable activation marker,
the rest is presentation data. -/
structure Role where
  name : String
  display_name : String
  resource_name : String
  resource_type : String
  assignment_type : Option String
  end_date_time : Option String
deriving DecidableEq

/-- Contents of the roles cache file as seen by `load_roles_from_cache`
(cli.py lines 16-22): `invalidJSON` is a file on which `json.load` raises
`JSONDecodeError`; `missingKeys` is a JSON document on which
`pim.deserialize_roles` raises `KeyError` (the deserializer is modelled from
the spec: a document missing expected keys); `valid rs` is a document that
deserializes to the role list `rs`. -/
inductive CacheData where
  | invalidJSON : CacheData
  | missingKeys : CacheData
  | valid : List Role → CacheData
deriving DecidableEq

/-- Modelled from the spec: the external PIM client capability for one command
run. `roles` is the result `get_roles()` returns; `activate_ok id` tells whether
`activate_role` on the role named `id` succeeds (`false` means it raises
`PIMError`); `deactivate_ok` likewise for `deactivate_role`. -/
structure PIMEnv where
  roles : List Role
  activate_ok : String → Bool
  deactivate_ok : String → Bool

/-- Observable external effects of one command run: network calls to the PIM
client and writes of the roles cache file. -/
inductive Event where
  | getRoles : Event
  | writeCache : List Role → Event
  | activateRole : String → Event
  | deactivateRole : String → Event
deriving DecidableEq

/-- Modelled from the spec: `serialize_roles` composed with
`deserialize_roles` round-trips a role list, so a cache file written from
`rs` parses back to `rs`. -/
def serialize_roles (rs : List Role) : CacheData := CacheData.valid rs

/-- load_roles_from_cache (cli.py lines 14-23): read the cache file when it
exists; malformed JSON or missing keys are caught and yield None; otherwise the
deserialized role list. `none` for the argument means the file does not exist. -/
def load_roles_from_cache : Option CacheData → Option (List Role)
  | none => none
  | some CacheData.invalidJSON => none
  | some CacheData.missingKeys => none
  | some (CacheData.valid rs) => some rs

/-- refresh_and_save_cache (cli.py lines 26-31): call `get_roles`, write the
serialized result to the cache file, return the roles. The result is the
returned roles, the new cache file content, and the emitted events. -/
def refresh_and_save_cache (env : PIMEnv) : List Role × CacheData × List Event :=
  (env.roles, serialize_roles env.roles, [Event.getRoles, Event.writeCache env.roles])

/-- The expression `load_roles_from_cache(pim) or refresh_and_save_cache(pim)`
shared by activate (line 42), deactivate (line 74) and import_config (line 165):
Python `or` treats both None and the empty list as falsy, so a present but empty
cache also triggers a refresh here. -/
def load_or_refresh (env : PIMEnv) (cache : Option CacheData) :
    List Role × Option CacheData × List Event :=
  match load_roles_from_cache cache with
  | some rs =>
    if rs.isEmpty then
      ((refresh_and_save_cache env).1, some (refresh_and_save_cache env).2.1,
        (refresh_and_save_cache env).2.2)
    else (rs, cache, [])
  | none =>
    ((refresh_and_save_cache env).1, some (refresh_and_save_cache env).2.1,
      (refresh_and_save_cache env).2.2)

/-- Python truthiness of `role.assignment_type` as used in the guards at
cli.py lines 50 and 82: None and the empty string are falsy. -/
def truthyAssignment : Option String → Bool
  | none => false
  | some s => s != ""

/-- Outcome of a single activate or deactivate command. -/
inductive CmdOutcome where
  | notFound : CmdOutcome
  | alreadyActivated : CmdOutcome
  | notActivated : CmdOutcome
  | success : CmdOutcome
  | pimFailure : CmdOutcome
deriving DecidableEq

/-- Result of an activate or deactivate command: user-visible outcome, final
cache file content, emitted events. -/
structure CmdResult where
  outcome : CmdOutcome
  cache : Option CacheData
  trace : List Event
deriving DecidableEq

/-- activate (cli.py lines 37-63): load-or-refresh, find the role by id, fail
fast when already active, otherwise call `activate_role` (the call is emitted
even when it raises `PIMError`, which is caught at the command boundary) and on
success refresh the cache once more. -/
def activate (env : PIMEnv) (role_id : String) (cache : Option CacheData) : CmdResult :=
  match (load_or_refresh env cache).1.find? (fun r => r.name == role_id) with
  | none =>
    ⟨CmdOutcome.notFound, (load_or_refresh env cache).2.1, (load_or_refresh env cache).2.2⟩
  | some role =>
    if truthyAssignment role.assignment_type then
      ⟨CmdOutcome.alreadyActivated, (load_or_refresh env cache).2.1,
        (load_or_refresh env cache).2.2⟩
    else if env.activate_ok role.name then
      ⟨CmdOutcome.success, some (refresh_and_save_cache env).2.1,
        (load_or_refresh env cache).2.2 ++ [Event.activateRole role.name] ++
          (refresh_and_save_cache env).2.2⟩
    else
      ⟨CmdOutcome.pimFailure, (load_or_refresh env cache).2.1,
        (load_or_refresh env cache).2.2 ++ [Event.activateRole role.name]⟩

/-- deactivate (cli.py lines 69-95): symmetric to activate, failing fast when
the role is not currently active. -/
def deactivate (env : PIMEnv) (role_id : String) (cache : Option CacheData) : CmdResult :=
  match (load_or_refresh env cache).1.find? (fun r => r.name == role_id) with
  | none =>
    ⟨CmdOutcome.notFound, (load_or_refresh env cache).2.1, (load_or_refresh env cache).2.2⟩
  | some role =>
    if !truthyAssignment role.assignment_type then
      ⟨CmdOutcome.notActivated, (load_or_refresh env cache).2.1,
        (load_or_refresh env cache).2.2⟩
    else if env.deactivate_ok role.name then
      ⟨CmdOutcome.success, some (refresh_and_save_cache env).2.1,
        (load_or_refresh env cache).2.2 ++ [Event.deactivateRole role.name] ++
          (refresh_and_save_cache env).2.2⟩
    else
      ⟨CmdOutcome.pimFailure, (load_or_refresh env cache).2.1,
        (load_or_refresh env cache).2.2 ++ [Event.deactivateRole role.name]⟩

/-- list_roles (cli.py lines 101-150): `roles = None if update else
load_roles_from_cache(pim)`, then refresh exactly when `roles is None`. Unlike
the `or` expression in the other commands, a present but empty cache is NOT a
miss here. The result is the role list that gets rendered, the final cache
content, and the emitted events. -/
def list_roles (env : PIMEnv) (update : Bool) (cache : Option CacheData) :
    List Role × Option CacheData × List Event :=
  match (if update then none else load_roles_from_cache cache) with
  | none =>
    ((refresh_and_save_cache env).1, some (refresh_and_save_cache env).2.1,
      (refresh_and_save_cache env).2.2)
  | some rs => (rs, cache, [])

/-- One entry of the auto-activate configuration, in the current on-disk shape
`{"id", "name", "resource", "autoActivate"}`. -/
structure ConfigRole where
  id : String
  name : String
  resource : String
  autoActivate : Bool
deriving DecidableEq

/-- A parsed import-config JSON document, as a Python dict with the two keys
cli.py inspects: `autoActivationEnabled` (legacy flat map, an association list
of role id to flag) and `roles` (current shape). Either key may be absent. -/
structure ImportInput where
  autoActivationEnabled : Option (List (String × Bool))
  roles : Option (List ConfigRole)

/-- The import-config input file: either not parseable as JSON, or a parsed
document. -/
inductive ImportFile where
  | malformed : ImportFile
  | parsed : ImportInput → ImportFile

/-- Python `old_config.get(role.name, False)` (cli.py line 169): look up a key
in the legacy map, defaulting to False. -/
def dictGet (m : List (String × Bool)) (k : String) : Bool :=
  match m.find? (fun p => p.1 == k) with
  | none => false
  | some p => p.2

/-- The legacy-format conversion loop (cli.py lines 167-176): one output entry
per role of the resolved role set, in role-set order, carrying the display name
and resource name, with the auto-activate flag looked up in the legacy map. -/
def migrate_legacy (old : List (String × Bool)) (roles : List Role) : List ConfigRole :=
  roles.map (fun r => ⟨r.name, r.display_name, r.resource_name, dictGet old r.name⟩)

/-- Outcome of the import-config command. -/
inductive ImportOutcome where
  | invalidJSON : ImportOutcome
  | invalidFormat : ImportOutcome
  | imported : Nat → ImportOutcome
deriving DecidableEq

/-- Result of import-config: outcome, final roles cache file, final
auto-activate config file, emitted events. -/
structure ImportResult where
  outcome : ImportOutcome
  rolesCache : Option CacheData
  autoConfig : Option (List ConfigRole)
  trace : List Event
deriving DecidableEq

/-- import_config (cli.py lines 155-200): parse the file; when the legacy key
is present, resolve the current role set (cache-or-refresh) and migrate;
validate that a `roles` key is present (its absence raises a ClickException
before any write, caught at the command boundary); persist the normalized
config, overwriting the prior one. -/
def import_config (env : PIMEnv) (file : ImportFile) (rolesCache : Option CacheData)
    (autoConfig : Option (List ConfigRole)) : ImportResult :=
  match file with
  | ImportFile.malformed => ⟨ImportOutcome.invalidJSON, rolesCache, autoConfig, []⟩
  | ImportFile.parsed cfg =>
    match cfg.autoActivationEnabled with
    | some old =>
      ⟨ImportOutcome.imported (migrate_legacy old (load_or_refresh env rolesCache).1).length,
        (load_or_refresh env rolesCache).2.1,
        some (migrate_legacy old (load_or_refresh env rolesCache).1),
        (load_or_refresh env rolesCache).2.2⟩
    | none =>
      match cfg.roles with
      | none => ⟨ImportOutcome.invalidFormat, rolesCache, autoConfig, []⟩
      | some rs => ⟨ImportOutcome.imported rs.length, rolesCache, some rs, []⟩

/-- Outcome of the auto-activate command. -/
inductive AutoOutcome where
  | noConfig : AutoOutcome
  | noRoles : AutoOutcome
  | done : Nat → Nat → Nat → AutoOutcome
deriving DecidableEq

/-- Result of auto-activate: outcome (with activated, skipped, failed counts),
final cache file content, emitted events. -/
structure AutoResult where
  outcome : AutoOutcome
  cache : Option CacheData
  trace : List Event
deriving DecidableEq

/-- The per-entry loop of auto_activate (cli.py lines 226-247), over the live
role set: entries without the flag are passed over; an id not found in the live
roles counts as failed; an already active role counts as skipped; otherwise
`activate_role` is called (the call is emitted even when it raises `PIMError`)
and counted as activated or failed. Returns (activated, skipped, failed,
events). -/
def auto_activate_loop (env : PIMEnv) (live : List Role) :
    List ConfigRole → Nat × Nat × Nat × List Event
  | [] => (0, 0, 0, [])
  | c :: rest =>
    let step : Nat × Nat × Nat × List Event :=
      if !c.autoActivate then (0, 0, 0, [])
      else
        match live.find? (fun r => r.name == c.id) with
        | none => (0, 0, 1, [])
        | some r =>
          if truthyAssignment r.assignment_type then (0, 1, 0, [])
          else if env.activate_ok r.name then (1, 0, 0, [Event.activateRole r.name])
          else (0, 0, 1, [Event.activateRole r.name])
    let t := auto_activate_loop env live rest
    (step.1 + t.1, step.2.1 + t.2.1, step.2.2.1 + t.2.2.1, step.2.2.2 ++ t.2.2.2)

/-- auto_activate (cli.py lines 204-262): a missing config file or a config
with no (or an empty) `roles` list is a reported no-op; otherwise force a cache
refresh, run the loop over the live roles, and refresh the cache once more.
`autoConfig = none` means the config file does not exist; the model covers a
parseable config file. -/
def auto_activate (env : PIMEnv) (autoConfig : Option (List ConfigRole))
    (cache : Option CacheData) : AutoResult :=
  match autoConfig with
  | none => ⟨AutoOutcome.noConfig, cache, []⟩
  | some cfgRoles =>
    if cfgRoles.isEmpty then ⟨AutoOutcome.noRoles, cache, []⟩
    else
      let r1 := refresh_and_save_cache env
      let t := auto_activate_loop env r1.1 cfgRoles
      let r2 := refresh_and_save_cache env
      ⟨AutoOutcome.done t.1 t.2.1 t.2.2.1, some r2.2.1, r1.2.2 ++ t.2.2.2 ++ r2.2.2⟩

/-- A sample role used for concrete witnesses and counterexamples. -/
def sampleRole : Role :=
  ⟨"role1", "Reader", "Sub1", "Subscription", none, none⟩

/-- A sample environment whose live role set is just `sampleRole` and in which
every mutation succeeds. -/
def sampleEnv : PIMEnv :=
  ⟨[sampleRole], fun _ => true, fun _ => true⟩

/-- A sample role that is currently activated. -/
def activeSampleRole : Role :=
  ⟨"role2", "Owner", "Sub2", "Subscription", some "Activated", some "2025-01-01T00:00Z"⟩

/-- The trace of the shared load-or-refresh step is either empty (cache hit)
or exactly one role fetch followed by one cache write of the fetched roles. -/
theorem load_or_refresh_trace (env : PIMEnv) (cache : Option CacheData) :
    (load_or_refresh env cache).2.2 = [] ∨
    (load_or_refresh env cache).2.2 = [Event.getRoles, Event.writeCache env.roles] := by
  unfold load_or_refresh
  cases h : load_roles_from_cache cache with
  | none => right; rfl
  | some rs =>
    by_cases he : rs.isEmpty
    · right; simp [he, refresh_and_save_cache]
    · left; simp [he]

/-- The load-or-refresh step performs no activation or deactivation call. -/
theorem load_or_refresh_no_mutation (env : PIMEnv) (cache : Option CacheData) (j : String) :
    Event.activateRole j ∉ (load_or_refresh env cache).2.2 ∧
    Event.deactivateRole j ∉ (load_or_refresh env cache).2.2 := by
  rcases load_or_refresh_trace env cache with h | h <;> rw [h] <;> simp

/-- Finding by name in a role list whose names are pairwise distinct recovers
exactly the member with that name. -/
theorem find_name_of_nodup (roles : List Role) (role : Role)
    (hnodup : (roles.map Role.name).Nodup) (hmem : role ∈ roles) :
    roles.find? (fun r => r.name == role.name) = some role := by
  induction roles with
  | nil => cases hmem
  | cons a l ih =>
    simp only [List.map_cons, List.nodup_cons] at hnodup
    rcases List.mem_cons.mp hmem with h | h
    · subst h
      simp [List.find?_cons_of_pos]
    · have hne : (a.name == role.name) = false := by
        refine beq_eq_false_iff_ne.mpr (fun he => hnodup.1 ?_)
        rw [he]
        exact List.mem_map_of_mem Role.name h
      rw [List.find?_cons_of_neg _ (by simp [hne]), ih hnodup.2 h]

/-- A key absent from the first components of a legacy map looks up to the
default False. -/
theorem dictGet_not_mem (m : List (String × Bool)) (k : String)
    (h : k ∉ m.map Prod.fst) : dictGet m k = false := by
  unfold dictGet
  cases hf : m.find? (fun p => p.1 == k) with
  | none => rfl
  | some p =>
    have h1 : (p.1 == k) = true := by simpa using List.find?_some hf
    have h2 : p ∈ m := List.mem_of_find?_eq_some hf
    have hk : k ∈ m.map Prod.fst := by
      rw [← eq_of_beq h1]
      exact List.mem_map_of_mem Prod.fst h2
    exact absurd hk h

/-- C8: importing a parseable JSON document that lacks both the
`autoActivationEnabled` key and the `roles` key fails with the distinct
invalid-config-format outcome, leaves the auto-activate config file (and the
roles cache) unchanged, and makes no external call. -/
theorem c8_invalid_config_rejected (env : PIMEnv) (rolesCache : Option CacheData)
    (autoConfig : Option (List ConfigRole)) :
    import_config env (ImportFile.parsed ⟨none, none⟩) rolesCache autoConfig =
      ⟨ImportOutcome.invalidFormat, rolesCache, autoConfig, []⟩ := rfl

/-- C10: importing a config already in the current roles shape (no legacy key)
makes no PIM call and writes no roles cache (empty event trace, cache passed
through unchanged); only the auto-activate config is replaced, with exactly the
given entries. -/
theorem c10_current_shape_frame (env : PIMEnv) (l : List ConfigRole)
    (rolesCache : Option CacheData) (autoConfig : Option (List ConfigRole)) :
    import_config env (ImportFile.parsed ⟨none, some l⟩) rolesCache autoConfig =
      ⟨ImportOutcome.imported l.length, rolesCache, some l, []⟩ := rfl

/-- Role named roleA with display name Reader on resource Sub1, for the
migration round-trip scenario. -/
def roleA : Role := ⟨"roleA", "Reader", "Sub1", "Subscription", none, none⟩

/-- Role named roleB with display name Owner on resource Sub2, for the
migration round-trip scenario. -/
def roleB : Role := ⟨"roleB", "Owner", "Sub2", "Subscription", none, none⟩

/-- C6: importing the legacy config mapping roleA to true and roleB to false
against a role set holding roleA (Reader, Sub1) and roleB (Owner, Sub2)
produces exactly the normalized two-entry roles list and persists it as the
auto-activate config. -/
theorem c6_legacy_migration_roundtrip :
    import_config ⟨[roleA, roleB], fun _ => true, fun _ => true⟩
      (ImportFile.parsed ⟨some [("roleA", true), ("roleB", false)], none⟩)
      (some (CacheData.valid [roleA, roleB])) none =
    ⟨ImportOutcome.imported 2, some (CacheData.valid [roleA, roleB]),
      some [⟨"roleA", "Reader", "Sub1", true⟩, ⟨"roleB", "Owner", "Sub2", false⟩], []⟩ := by
  rfl

/-- C1 counterexample: the claim quantifies over every command that reads
roles, but list-roles without the update flag, on a present, valid, empty
cache file, performs no refresh at all: its event trace is empty (no role
fetch, no cache write) and it renders the empty cached list even though the
refresh result would be nonempty. -/
theorem c1_counterexample :
    (list_roles sampleEnv false (some (CacheData.valid []))).2.2 = []
    ∧ (list_roles sampleEnv false (some (CacheData.valid []))).1 = []
    ∧ sampleEnv.roles ≠ [] := by
  refine ⟨rfl, rfl, ?_⟩
  simp [sampleEnv]

/-- C1 (amended): with the force flag (list-roles with update), a refresh is
always performed, the rendered roles equal exactly the refresh result and the
cache file is overwritten with exactly its serialization. Without forcing,
activate, deactivate and import-config (the shared Python or-expression)
refresh exactly when the cache is empty or unparsable, and otherwise use the
cached roles with no event; list-roles instead refreshes only when the cache
is absent or unparsable (load returns None), and renders any successfully
loaded list, even an empty one, without refreshing. -/
theorem c1_read_policy (env : PIMEnv) (cache : Option CacheData) :
    (list_roles env true cache =
      (env.roles, some (serialize_roles env.roles),
        [Event.getRoles, Event.writeCache env.roles]))
    ∧ ((load_roles_from_cache cache = none ∨ load_roles_from_cache cache = some []) →
      load_or_refresh env cache =
        (env.roles, some (serialize_roles env.roles),
          [Event.getRoles, Event.writeCache env.roles]))
    ∧ (∀ rs, load_roles_from_cache cache = some rs → rs ≠ [] →
      load_or_refresh env cache = (rs, cache, []))
    ∧ (load_roles_from_cache cache = none →
      list_roles env false cache =
        (env.roles, some (serialize_roles env.roles),
          [Event.getRoles, Event.writeCache env.roles]))
    ∧ (∀ rs, load_roles_from_cache cache = some rs →
      list_roles env false cache = (rs, cache, [])) := by
  refine ⟨rfl, ?_, ?_, ?_, ?_⟩
  · rintro (h | h) <;> simp [load_or_refresh, h, refresh_and_save_cache]
  · intro rs h hne
    cases rs with
    | nil => exact absurd rfl hne
    | cons a l => simp [load_or_refresh, h]
  · intro h
    simp [list_roles, h, refresh_and_save_cache]
  · intro rs h
    simp [list_roles, h]

/-- Witness for the amended C1 policy at concrete inputs: a populated valid
cache is used without refresh by the or-expression, and list-roles with the
update flag refreshes over that same cache. -/
theorem c1_read_policy_witness :
    load_or_refresh sampleEnv (some (CacheData.valid [sampleRole])) =
      ([sampleRole], some (CacheData.valid [sampleRole]), [])
    ∧ list_roles sampleEnv true (some (CacheData.valid [sampleRole])) =
      ([sampleRole], some (CacheData.valid [sampleRole]),
        [Event.getRoles, Event.writeCache [sampleRole]]) :=
  ⟨(c1_read_policy sampleEnv (some (CacheData.valid [sampleRole]))).2.2.1
      [sampleRole] rfl (by simp),
    (c1_read_policy sampleEnv (some (CacheData.valid [sampleRole]))).1⟩

/-- C2: a corrupt cache file, whether malformed JSON or a document with
missing expected keys, loads as None rather than raising, and a
force-update-false read then refreshes and succeeds: both the shared
or-expression path and list-roles return the freshly fetched roles and leave
the cache file holding exactly their serialization, with no error surfaced. -/
theorem c2_corrupt_cache_degrades_to_refresh (env : PIMEnv) (c : CacheData)
    (h : c = CacheData.invalidJSON ∨ c = CacheData.missingKeys) :
    load_roles_from_cache (some c) = none
    ∧ load_or_refresh env (some c) =
      (env.roles, some (serialize_roles env.roles),
        [Event.getRoles, Event.writeCache env.roles])
    ∧ list_roles env false (some c) =
      (env.roles, some (serialize_roles env.roles),
        [Event.getRoles, Event.writeCache env.roles]) := by
  have hl : load_roles_from_cache (some c) = none := by
    rcases h with h | h <;> subst h <;> rfl
  exact ⟨hl, by simp [load_or_refresh, hl, refresh_and_save_cache],
    by simp [list_roles, hl, refresh_and_save_cache]⟩

/-- Witness for C2 on a malformed-JSON cache file in the sample environment. -/
theorem c2_corrupt_cache_witness :
    load_roles_from_cache (some CacheData.invalidJSON) = none
    ∧ load_or_refresh sampleEnv (some CacheData.invalidJSON) =
      ([sampleRole], some (CacheData.valid [sampleRole]),
        [Event.getRoles, Event.writeCache [sampleRole]])
    ∧ list_roles sampleEnv false (some CacheData.invalidJSON) =
      ([sampleRole], some (CacheData.valid [sampleRole]),
        [Event.getRoles, Event.writeCache [sampleRole]]) :=
  c2_corrupt_cache_degrades_to_refresh sampleEnv CacheData.invalidJSON (Or.inl rfl)

/-- C3: for a role of the current role set (the list the command resolves via
cache-or-refresh, with pairwise distinct ids) whose assignment type is set,
activate on its id reports already-activated and emits no activation call; for
a role whose assignment type is not set, deactivate on its id reports
not-currently-activated and emits no deactivation call. -/
theorem c3_mutation_preconditions (env : PIMEnv) (cache : Option CacheData) (role : Role)
    (hnodup : ((load_or_refresh env cache).1.map Role.name).Nodup)
    (hmem : role ∈ (load_or_refresh env cache).1) :
    (truthyAssignment role.assignment_type = true →
      (activate env role.name cache).outcome = CmdOutcome.alreadyActivated
      ∧ ∀ j, Event.activateRole j ∉ (activate env role.name cache).trace)
    ∧ (truthyAssignment role.assignment_type = false →
      (deactivate env role.name cache).outcome = CmdOutcome.notActivated
      ∧ ∀ j, Event.deactivateRole j ∉ (deactivate env role.name cache).trace) := by
  have hfind : (load_or_refresh env cache).1.find? (fun r => r.name == role.name) = some role :=
    find_name_of_nodup _ _ hnodup hmem
  constructor
  · intro ht
    simp only [activate, hfind, ht, if_true]
    exact ⟨trivial, fun j => (load_or_refresh_no_mutation env cache j).1⟩
  · intro hf
    simp only [deactivate, hfind, hf, Bool.not_false, if_true]
    exact ⟨trivial, fun j => (load_or_refresh_no_mutation env cache j).2⟩

/-- Witness for C3: activating an already active role and deactivating an
inactive role in a two-role environment, both resolved from a valid cache. -/
theorem c3_mutation_preconditions_witness :
    ((activate ⟨[sampleRole, activeSampleRole], fun _ => true, fun _ => true⟩
        "role2" (some (CacheData.valid [sampleRole, activeSampleRole]))).outcome
      = CmdOutcome.alreadyActivated)
    ∧ ((deactivate ⟨[sampleRole, activeSampleRole], fun _ => true, fun _ => true⟩
        "role1" (some (CacheData.valid [sampleRole, activeSampleRole]))).outcome
      = CmdOutcome.notActivated) :=
  ⟨((c3_mutation_preconditions ⟨[sampleRole, activeSampleRole], fun _ => true, fun _ => true⟩
      (some (CacheData.valid [sampleRole, activeSampleRole])) activeSampleRole
      (by decide) (by decide)).1 (by decide)).1,
   ((c3_mutation_preconditions ⟨[sampleRole, activeSampleRole], fun _ => true, fun _ => true⟩
      (some (CacheData.valid [sampleRole, activeSampleRole])) sampleRole
      (by decide) (by decide)).2 (by decide)).1⟩

/-- C4: after a successful activate or deactivate, the events following the
single mutation call are exactly one role fetch followed by one cache write of
that full fetched result, and the final cache file content is exactly the
serialization of the post-mutation fetch, fully replacing prior content. -/
theorem c4_post_mutation_refresh (env : PIMEnv) (role_id : String) (cache : Option CacheData) :
    ((activate env role_id cache).outcome = CmdOutcome.success →
      (activate env role_id cache).cache = some (serialize_roles env.roles)
      ∧ ∃ rid pre, (activate env role_id cache).trace =
          pre ++ [Event.activateRole rid, Event.getRoles, Event.writeCache env.roles]
        ∧ ∀ j, Event.activateRole j ∉ pre)
    ∧ ((deactivate env role_id cache).outcome = CmdOutcome.success →
      (deactivate env role_id cache).cache = some (serialize_roles env.roles)
      ∧ ∃ rid pre, (deactivate env role_id cache).trace =
          pre ++ [Event.deactivateRole rid, Event.getRoles, Event.writeCache env.roles]
        ∧ ∀ j, Event.deactivateRole j ∉ pre) := by
  constructor
  · intro hs
    cases hfind : (load_or_refresh env cache).1.find? (fun r => r.name == role_id) with
    | none => simp only [activate, hfind] at hs; cases hs
    | some role =>
      by_cases ht : truthyAssignment role.assignment_type = true
      · simp only [activate, hfind, ht, if_true] at hs; cases hs
      · by_cases hok : env.activate_ok role.name = true
        · simp only [activate, hfind, ht, if_false, hok, if_true]
          refine ⟨rfl, role.name, (load_or_refresh env cache).2.2, ?_, ?_⟩
          · simp [refresh_and_save_cache]
          · exact fun j => (load_or_refresh_no_mutation env cache j).1
        · simp only [activate, hfind, ht, if_false, hok] at hs; cases hs
  · intro hs
    cases hfind : (load_or_refresh env cache).1.find? (fun r => r.name == role_id) with
    | none => simp only [deactivate, hfind] at hs; cases hs
    | some role =>
      by_cases ht : truthyAssignment role.assignment_type = true
      · by_cases hok : env.deactivate_ok role.name = true
        · simp only [deactivate, hfind, ht, Bool.not_true, if_false, hok, if_true]
          refine ⟨rfl, role.name, (load_or_refresh env cache).2.2, ?_, ?_⟩
          · simp [refresh_and_save_cache]
          · exact fun j => (load_or_refresh_no_mutation env cache j).2
        · simp only [deactivate, hfind, ht, Bool.not_true, if_false, hok] at hs; cases hs
      · have ht2 : truthyAssignment role.assignment_type = false := by
          cases h : truthyAssignment role.assignment_type
          · rfl
          · exact absurd h ht
        simp only [deactivate, hfind, ht2, Bool.not_false, if_true] at hs; cases hs

/-- Witness for C4: a successful activation and a successful deactivation in
the two-role sample environment. -/
theorem c4_post_mutation_refresh_witness :
    ((activate ⟨[sampleRole, activeSampleRole], fun _ => true, fun _ => true⟩
        "role1" (some (CacheData.valid [sampleRole, activeSampleRole]))).cache
      = some (serialize_roles [sampleRole, activeSampleRole])
      ∧ ∃ rid pre, (activate ⟨[sampleRole, activeSampleRole], fun _ => true, fun _ => true⟩
          "role1" (some (CacheData.valid [sampleRole, activeSampleRole]))).trace =
          pre ++ [Event.activateRole rid, Event.getRoles,
            Event.writeCache [sampleRole, activeSampleRole]]
        ∧ ∀ j, Event.activateRole j ∉ pre)
    ∧ ((deactivate ⟨[sampleRole, activeSampleRole], fun _ => true, fun _ => true⟩
        "role2" (some (CacheData.valid [sampleRole, activeSampleRole]))).cache
      = some (serialize_roles [sampleRole, activeSampleRole])
      ∧ ∃ rid pre, (deactivate ⟨[sampleRole, activeSampleRole], fun _ => true, fun _ => true⟩
          "role2" (some (CacheData.valid [sampleRole, activeSampleRole]))).trace =
          pre ++ [Event.deactivateRole rid, Event.getRoles,
            Event.writeCache [sampleRole, activeSampleRole]]
        ∧ ∀ j, Event.deactivateRole j ∉ pre) :=
  ⟨(c4_post_mutation_refresh ⟨[sampleRole, activeSampleRole], fun _ => true, fun _ => true⟩
      "role1" (some (CacheData.valid [sampleRole, activeSampleRole]))).1 (by decide),
   (c4_post_mutation_refresh ⟨[sampleRole, activeSampleRole], fun _ => true, fun _ => true⟩
      "role2" (some (CacheData.valid [sampleRole, activeSampleRole]))).2 (by decide)⟩

/-- C7: for every legacy map and resolved role set, a role id absent from the
resolved set produces no entry in the normalized output: the import still
succeeds (one imported entry per resolved role, no error outcome) and no
persisted entry carries the absent id. -/
theorem c7_legacy_absent_ids_dropped (env : PIMEnv) (old : List (String × Bool))
    (extra : Option (List ConfigRole)) (rolesCache : Option CacheData)
    (autoConfig : Option (List ConfigRole)) (roleId : String)
    (habs : roleId ∉ (load_or_refresh env rolesCache).1.map Role.name) :
    (import_config env (ImportFile.parsed ⟨some old, extra⟩) rolesCache autoConfig).outcome
      = ImportOutcome.imported (load_or_refresh env rolesCache).1.length
    ∧ ∀ out, (import_config env (ImportFile.parsed ⟨some old, extra⟩)
        rolesCache autoConfig).autoConfig = some out →
      ∀ e ∈ out, e.id ≠ roleId := by
  refine ⟨by simp [import_config, migrate_legacy], ?_⟩
  intro out hout e he hcontra
  have hout2 : out = migrate_legacy old (load_or_refresh env rolesCache).1 := by
    have := hout
    simp only [import_config] at this
    exact (Option.some.injEq _ _ ▸ this).symm
  subst hout2
  rcases List.mem_map.mp he with ⟨r, hr, he2⟩
  apply habs
  rw [← hcontra, ← he2]
  exact List.mem_map_of_mem Role.name hr

/-- Witness for C7: a legacy map referencing a ghost id against a one-role
cache imports that one role and persists no entry with the ghost id. -/
theorem c7_legacy_absent_ids_dropped_witness :
    (import_config sampleEnv (ImportFile.parsed ⟨some [("ghost", true)], none⟩)
        (some (CacheData.valid [sampleRole])) none).outcome = ImportOutcome.imported 1
    ∧ ∀ out, (import_config sampleEnv (ImportFile.parsed ⟨some [("ghost", true)], none⟩)
        (some (CacheData.valid [sampleRole])) none).autoConfig = some out →
      ∀ e ∈ out, e.id ≠ "ghost" :=
  c7_legacy_absent_ids_dropped sampleEnv [("ghost", true)] none
    (some (CacheData.valid [sampleRole])) none "ghost" (by decide)

/-- C9: the migrated roles list is keyed by the live role set: it has exactly
one entry per resolved role, in role-set order, each carrying that role's id,
display name and resource name, and a role never mentioned in the legacy map
gets the auto-activate flag false. -/
theorem c9_migration_keyed_by_role_set (env : PIMEnv) (old : List (String × Bool))
    (extra : Option (List ConfigRole)) (rolesCache : Option CacheData)
    (autoConfig : Option (List ConfigRole)) :
    ∃ out, (import_config env (ImportFile.parsed ⟨some old, extra⟩)
        rolesCache autoConfig).autoConfig = some out
    ∧ out.length = (load_or_refresh env rolesCache).1.length
    ∧ ∀ i (hi : i < out.length) (hl : i < (load_or_refresh env rolesCache).1.length),
        (out.get ⟨i, hi⟩).id = ((load_or_refresh env rolesCache).1.get ⟨i, hl⟩).name
        ∧ (out.get ⟨i, hi⟩).name = ((load_or_refresh env rolesCache).1.get ⟨i, hl⟩).display_name
        ∧ (out.get ⟨i, hi⟩).resource
            = ((load_or_refresh env rolesCache).1.get ⟨i, hl⟩).resource_name
        ∧ (((load_or_refresh env rolesCache).1.get ⟨i, hl⟩).name ∉ old.map Prod.fst →
            (out.get ⟨i, hi⟩).autoActivate = false) := by
  refine ⟨migrate_legacy old (load_or_refresh env rolesCache).1, by simp [import_config],
    by simp [migrate_legacy], ?_⟩
  intro i hi hl
  simp only [migrate_legacy, List.get_eq_getElem, List.getElem_map]
  exact ⟨trivial, trivial, trivial, fun hnot => dictGet_not_mem old _ hnot⟩

/-- Witness for C9 on a concrete legacy map naming only one of the two cached
roles: the output is keyed by the two-role cache, and the unmentioned role
gets the flag false. -/
theorem c9_migration_keyed_by_role_set_witness :
    ∃ out, (import_config ⟨[roleA, roleB], fun _ => true, fun _ => true⟩
        (ImportFile.parsed ⟨some [("roleA", true)], none⟩)
        (some (CacheData.valid [roleA, roleB])) none).autoConfig = some out
    ∧ out.length = 2
    ∧ (∀ i (hi : i < out.length) (hl : i < ([roleA, roleB] : List Role).length),
        (out.get ⟨i, hi⟩).id = (([roleA, roleB] : List Role).get ⟨i, hl⟩).name
        ∧ (out.get ⟨i, hi⟩).name = (([roleA, roleB] : List Role).get ⟨i, hl⟩).display_name
        ∧ (out.get ⟨i, hi⟩).resource
            = (([roleA, roleB] : List Role).get ⟨i, hl⟩).resource_name
        ∧ ((([roleA, roleB] : List Role).get ⟨i, hl⟩).name ∉
              ([("roleA", true)] : List (String × Bool)).map Prod.fst →
            (out.get ⟨i, hi⟩).autoActivate = false)) :=
  c9_migration_keyed_by_role_set ⟨[roleA, roleB], fun _ => true, fun _ => true⟩
    [("roleA", true)] none (some (CacheData.valid [roleA, roleB])) none

/-- C5: batch isolation in auto-activate. For any config of three entries all
flagged for auto-activation, where the first names an id absent from the live
role set, the second resolves to an inactive live role whose activation call
fails with a PIM error, and the third resolves to an inactive live role whose
activation succeeds, the run reports one activated, zero skipped, two failed,
and the activation call on the third role is emitted despite the two earlier
failures. -/
theorem c5_batch_isolation (env : PIMEnv) (a b c : String)
    (ea eb ec : ConfigRole) (rb rc : Role)
    (hea : ea.id = a) (heb : eb.id = b) (hec : ec.id = c)
    (haa : ea.autoActivate = true) (hba2 : eb.autoActivate = true)
    (hca2 : ec.autoActivate = true)
    (henv : env.roles = [rb, rc])
    (hrb : rb.name = b) (hrc : rc.name = c)
    (hba : b ≠ a) (hca : c ≠ a) (hbc : b ≠ c)
    (hrbI : truthyAssignment rb.assignment_type = false)
    (hrcI : truthyAssignment rc.assignment_type = false)
    (hfailb : env.activate_ok b = false) (hokc : env.activate_ok c = true)
    (cache : Option CacheData) :
    (auto_activate env (some [ea, eb, ec]) cache).outcome = AutoOutcome.done 1 0 2
    ∧ Event.activateRole c ∈ (auto_activate env (some [ea, eb, ec]) cache).trace := by
  have h1 : (b == a) = false := by simp [hba]
  have h2 : (c == a) = false := by simp [hca]
  have h4 : (b == c) = false := by simp [hbc]
  have h6 : c ≠ b := fun h => hbc h.symm
  constructor <;>
    simp [auto_activate, auto_activate_loop, refresh_and_save_cache, henv, List.find?,
      hea, heb, hec, haa, hba2, hca2, h1, h2, h4, h6, hrbI, hrcI, hrb, hrc,
      hfailb, hokc]

/-- Config entry for the witness scenario naming an id absent from the live
role set. -/
def cfgAbsent : ConfigRole := ⟨"idA", "Ghost", "SubA", true⟩

/-- Config entry for the witness scenario whose activation call fails. -/
def cfgFailing : ConfigRole := ⟨"idB", "Contributor", "SubB", true⟩

/-- Config entry for the witness scenario whose activation succeeds. -/
def cfgOk : ConfigRole := ⟨"idC", "Reader", "SubC", true⟩

/-- Live role resolved by the failing config entry. -/
def liveFailing : Role := ⟨"idB", "Contributor", "SubB", "Subscription", none, none⟩

/-- Live role resolved by the succeeding config entry. -/
def liveOk : Role := ⟨"idC", "Reader", "SubC", "Subscription", none, none⟩

/-- Environment for the C5 witness: two live roles, activation succeeding only
for the role named idC. -/
def envBatch : PIMEnv := ⟨[liveFailing, liveOk], fun s => s == "idC", fun _ => true⟩

/-- Witness for C5 at the concrete three-entry scenario. -/
theorem c5_batch_isolation_witness :
    (auto_activate envBatch (some [cfgAbsent, cfgFailing, cfgOk]) none).outcome
      = AutoOutcome.done 1 0 2
    ∧ Event.activateRole "idC" ∈
      (auto_activate envBatch (some [cfgAbsent, cfgFailing, cfgOk]) none).trace :=
  c5_batch_isolation envBatch "idA" "idB" "idC" cfgAbsent cfgFailing cfgOk
    liveFailing liveOk rfl rfl rfl rfl rfl rfl rfl rfl rfl
    (by decide) (by decide) (by decide) rfl rfl (by decide) (by decide) none

end AzureActivationService
